import Mathlib

/-!
Shallow embedding of the pulse frontend components:
ScenarioOrchestrator (src/unnamed/part_000), FileUploader and
DestinationManager (src/src-frontend/src/components/islands/), and the
EventGenerator island (concatenated into src/src-frontend/tailwind.config.js).
State hooks become explicit state records; the event handlers become pure
state-transition functions, returning a flag recording whether an HTTP
request was issued.
-/

/-- Destination kind, from the TS union `'hec' | 'syslog'`. -/
inductive DestKind where
  | hec
  | syslog
deriving DecidableEq

/-- Syslog protocol, from the TS union `'TCP' | 'UDP'`. -/
inductive Proto where
  | TCP
  | UDP
deriving DecidableEq

/-- Destination record as the ScenarioOrchestrator and FileUploader see it
(part_000 lines 13-17). -/
structure Dest where
  id : String
  name : String
  type : DestKind
deriving DecidableEq

/-- Scenario record (part_000 lines 3-11). -/
structure Scenario where
  id : String
  name : String
  description : String
  duration_days : Option Nat
  duration_minutes : Option Nat
  total_events : Nat
  phases : List String
deriving DecidableEq

/-- ScenarioConfig (part_000 lines 19-28). -/
structure ScenarioConfig where
  scenario_id : String
  destination_id : String
  workers : Int
  tag_phase : Bool
  tag_trace : Bool
  trace_id : String
  generate_noise : Bool
  noise_events_count : Int
deriving DecidableEq

/-- Initial config of the ScenarioOrchestrator useState (part_000 lines 37-46). -/
def defaultScenarioConfig : ScenarioConfig :=
  { scenario_id := ""
    destination_id := ""
    workers := 10
    tag_phase := true
    tag_trace := true
    trace_id := ""
    generate_noise := false
    noise_events_count := 1200 }

/-- Component state of ScenarioOrchestrator (part_000 lines 35-51). -/
structure OrchState where
  scenarios : List Scenario
  destinations : List Dest
  config : ScenarioConfig
  isRunning : Bool
  progress : List String
  loading : Bool
  error : String
deriving DecidableEq

/-- Validation message of runScenario (part_000 line 125). -/
def selectBothMsg : String := "Please select both scenario and destination"

/-- First progress line of runScenario (part_000 line 130). -/
def initializingMsg : String := "Initializing attack scenario..."

/-- Success line appended when the stream ends (part_000 line 164). -/
def completedMsg : String := "Attack scenario completed successfully!"

/-- Line appended by stopScenario (part_000 line 176). -/
def stoppedMsg : String := "Scenario execution stopped by user"

/-- Synthetic truncation marker promised by the spec for the progress channel. -/
def truncatedMarker : String := "progress truncated"

/-- JS `xs.slice(-k)`: the last `k` elements (all of them when fewer). -/
def sliceLast (k : Nat) (xs : List String) : List String :=
  xs.drop (xs.length - k)

/-- Capped progress append `[...prev.slice(-k), line]`, the updater passed to
setProgress in part_000 line 159 (k = 30), FileUploader line 177 and the
EventGenerator island (k = 20). -/
def appendProgress (k : Nat) (prev : List String) (line : String) : List String :=
  sliceLast k prev ++ [line]

/-- Synchronous prefix of runScenario (part_000 lines 123-140): the guard on
empty ids, then the state writes before the POST is issued. The Bool records
whether the HTTP request was issued. -/
def runScenarioStart (s : OrchState) : OrchState × Bool :=
  if s.config.scenario_id = "" ∨ s.config.destination_id = "" then
    ({ s with error := selectBothMsg }, false)
  else
    ({ s with isRunning := true, progress := [initializingMsg], error := "" }, true)

/-- stopScenario (part_000 lines 174-177). -/
def stopScenario (s : OrchState) : OrchState :=
  { s with isRunning := false, progress := s.progress ++ [stoppedMsg] }

/-- Observable events while runScenario consumes the response stream:
a streamed line (part_000 lines 158-160), a user stop (lines 174-177)
interleaved by React between reads, and the end of the stream, which appends
the completion line and clears isRunning (lines 164, 170). The read loop in
lines 151-162 never consults isRunning and nothing aborts the reader. -/
inductive RunEvent where
  | line (l : String)
  | stop
  | streamEnd
deriving DecidableEq

/-- One step of the streaming loop of runScenario. -/
def stepRun (s : OrchState) : RunEvent → OrchState
  | RunEvent.line l => { s with progress := appendProgress 30 s.progress l }
  | RunEvent.stop => stopScenario s
  | RunEvent.streamEnd =>
      { s with progress := s.progress ++ [completedMsg], isRunning := false }

/-- Run a sequence of streaming-loop events. -/
def runEvents (s : OrchState) (es : List RunEvent) : OrchState :=
  es.foldl stepRun s

/-- The destination options offered for a scenario run (part_000 line 248):
`destinations.filter(d => d.type === 'hec')`. -/
def scenarioDestOptions (ds : List Dest) : List Dest :=
  ds.filter (fun d => d.type = DestKind.hec)

/-- Decimal digit test, as JS parseInt radix 10 accepts. -/
def isDecDigit (c : Char) : Bool :=
  decide ('0' ≤ c) && decide (c ≤ '9')

/-- Numeric value of a run of decimal digits. -/
def digitsVal (ds : List Char) : Nat :=
  ds.foldl (fun a c => a * 10 + (c.toNat - '0'.toNat)) 0

/-- Leading decimal-digit run of a character list, none when there is no
leading digit. -/
def leadingNat (cs : List Char) : Option Nat :=
  match cs.takeWhile isDecDigit with
  | [] => none
  | ds => some (digitsVal ds)

/-- JS `parseInt(s)` with the default radix 10: skip leading whitespace, an
optional sign, then the longest leading digit run; none models NaN. Hex
prefixes of the JS default-radix corner case do not occur for the numeric
inputs embedded here and are not modelled. -/
def parseIntJS (s : String) : Option Int :=
  let cs := s.data.dropWhile
    (fun c => c = ' ' || c = '\t' || c = '\n' || c = '\r')
  match cs with
  | '-' :: rest => (leadingNat rest).map (fun n => -(n : Int))
  | '+' :: rest => (leadingNat rest).map (fun n => (n : Int))
  | rest => (leadingNat rest).map (fun n => (n : Int))

/-- The workers onChange handler (part_000 line 266):
`parseInt(e.target.value) || 1` — NaN and 0 are falsy and become 1. -/
def workersOnChange (v : String) : Int :=
  match parseIntJS v with
  | none => 1
  | some n => if n = 0 then 1 else n

/-- Config update performed by the workers input handler (part_000 line 266). -/
def updateWorkers (c : ScenarioConfig) (v : String) : ScenarioConfig :=
  { c with workers := workersOnChange v }

/-- generateTraceId (part_000 lines 184-188), with the nondeterministic
`Date.now().toString(36)` and `Math.random().toString(36).substring(2, 8)`
pieces as parameters; the produced id is `pulse-` ++ timestamp ++ `-` ++ rnd. -/
def generateTraceId (timestamp rnd : String) : String :=
  "pulse-" ++ timestamp ++ "-" ++ rnd

/-- Modelled from the spec: the backend RunController.start, which is not under
src/ (only the frontend caller is), generates the run's trace id when tagging
is enabled and the submitted one is absent: "trace_id (generated if tagging
enabled and absent)". `fresh` is the freshly generated id. -/
def startRunTraceId (c : ScenarioConfig) (fresh : String) : String :=
  if c.tag_trace = true ∧ c.trace_id = "" then fresh else c.trace_id

/-- Modelled from the spec: the effective RunConfig the run proceeds with
after RunController.start fills in a missing trace id. -/
def startRunConfig (c : ScenarioConfig) (fresh : String) : ScenarioConfig :=
  { c with trace_id := startRunTraceId c fresh }

/-- Uploaded-file record (FileUploader lines 3-10). -/
structure UploadedFile where
  id : String
  filename : String
  file_type : String
  size : Nat
  line_count : Nat
  created_at : String
deriving DecidableEq

/-- HEC endpoint choice of the processing form (FileUploader line 37). -/
inductive HecEndpoint where
  | event
  | raw
deriving DecidableEq

/-- Processing configuration (FileUploader lines 32-38); eps is a JS number
carried opaquely, never computed on in the embedded handlers. -/
structure ProcessConfig where
  destination : String
  sourcetype : String
  batch_size : Nat
  eps : Rat
  endpoint : HecEndpoint
deriving DecidableEq

/-- Component state of FileUploader (lines 23-38). -/
structure UploaderState where
  files : List UploadedFile
  destinations : List Dest
  dragActive : Bool
  uploading : Bool
  processing : Option String
  progress : List String
  error : String
  processConfig : ProcessConfig
deriving DecidableEq

/-- Browser file handed to handleFiles: a name and a byte size. -/
structure JsFile where
  name : String
  size : Nat
deriving DecidableEq

/-- Allowed upload extensions (FileUploader line 94). -/
def allowedTypes : List String := [".csv", ".json", ".txt", ".log", ".gz"]

/-- Upload size limit in bytes (FileUploader line 103): 50 MB. -/
def maxUploadBytes : Nat := 50 * 1024 * 1024

/-- JS `s.split(sep)` over a character list. -/
def splitOnChar (sep : Char) : List Char → List (List Char)
  | [] => [[]]
  | c :: rest =>
      if c = sep then [] :: splitOnChar sep rest
      else
        match splitOnChar sep rest with
        | [] => [[c]]
        | h :: t => (c :: h) :: t

/-- Extension extraction of handleFiles (FileUploader line 95):
`'.' + file.name.split('.').pop()?.toLowerCase()`. -/
def fileExtOf (name : String) : String :=
  "." ++ String.mk (((splitOnChar '.' name.data).getLastD []).map Char.toLower)

/-- Error message for a disallowed extension (FileUploader line 98):
`Invalid file type. Allowed: ` followed by the list joined with commas. -/
def invalidTypeMsg : String :=
  "Invalid file type. Allowed: " ++ String.intercalate ", " allowedTypes

/-- Error message for an oversized file (FileUploader line 104). -/
def tooLargeMsg : String := "File size must be less than 50MB"

/-- Synchronous prefix of handleFiles (FileUploader lines 89-118): extension
check, size check, then the writes made before the upload POST. The Bool
records whether the upload request was issued. -/
def handleFilesStep (s : UploaderState) (f : JsFile) : UploaderState × Bool :=
  if allowedTypes.contains (fileExtOf f.name) = false then
    ({ s with error := invalidTypeMsg }, false)
  else if maxUploadBytes < f.size then
    ({ s with error := tooLargeMsg }, false)
  else
    ({ s with uploading := true, error := "" }, true)

/-- Validation message of processFile (FileUploader line 136). -/
def selectDestSourcetypeMsg : String :=
  "Please select destination and enter sourcetype"

/-- First progress line of processFile (FileUploader line 141). -/
def processingStartMsg : String := "Starting file processing..."

/-- Synchronous prefix of processFile (FileUploader lines 134-158): the guard
on empty destination/sourcetype, then the state writes before the POST. The
Bool records whether the request was issued. -/
def processFileStart (s : UploaderState) (fileId : String) : UploaderState × Bool :=
  if s.processConfig.destination = "" ∨ s.processConfig.sourcetype = "" then
    ({ s with error := selectDestSourcetypeMsg }, false)
  else
    ({ s with
        processing := some fileId
        progress := [processingStartMsg]
        error := "" }, true)

/-- Progress updater of the scenario stream (part_000 line 159): keep the
last 30 lines, append the new one. -/
def scenarioProgressUpdate (prev : List String) (line : String) : List String :=
  appendProgress 30 prev line

/-- Progress updater of file processing (FileUploader line 177): keep the
last 20 lines, append the new one. -/
def processProgressUpdate (prev : List String) (line : String) : List String :=
  appendProgress 20 prev line

/-- Progress updater of the EventGenerator island (tailwind.config.js lines
310-320): for an SSE `data: ` line, keep the last 20 lines and append the
line's payload. -/
def generationProgressUpdate (prev : List String) (progressLine : String) :
    List String :=
  appendProgress 20 prev progressLine

/-- Destination form state (DestinationManager lines 23-30); port is kept as
the raw input string, parsed only when the payload is built. -/
structure DestFormData where
  name : String
  type : DestKind
  url : String
  ip : String
  port : String
  protocol : Proto
deriving DecidableEq

/-- Creation payload built by handleSubmit (DestinationManager lines 60-71).
Outer `none` on a field means the key is absent from the JS object; for port,
the inner Option carries parseInt's possible NaN. -/
structure DestPayload where
  name : String
  type : DestKind
  url : Option String
  ip : Option String
  port : Option (Option Int)
  protocol : Option Proto
deriving DecidableEq

/-- handleSubmit's payload construction (DestinationManager lines 60-71):
the name and type always, then either the url (hec) or ip, parsed port and
protocol (syslog) via the conditional spread. -/
def buildDestPayload (f : DestFormData) : DestPayload :=
  if f.type = DestKind.hec then
    { name := f.name, type := f.type, url := some f.url,
      ip := none, port := none, protocol := none }
  else
    { name := f.name, type := f.type, url := none,
      ip := some f.ip, port := some (parseIntJS f.port),
      protocol := some f.protocol }

/-- Predicate written from the spec's data-model sentence, for comparison
with the payload the source builds: a destination has kind HEC or Syslog and
carries exactly the connection parameters of its kind — a URL for HEC, or
ip, port and protocol for Syslog. -/
def specDestinationKindParams (p : DestPayload) : Prop :=
  match p.type with
  | DestKind.hec =>
      p.url.isSome = true ∧ p.ip = none ∧ p.port = none ∧ p.protocol = none
  | DestKind.syslog =>
      p.url = none ∧ p.ip.isSome = true ∧ p.port.isSome = true ∧
        p.protocol.isSome = true

/-- Initial ScenarioOrchestrator state (part_000 lines 35-51): empty lists,
default config, not running, empty progress, loading, no error. -/
def defaultOrchState : OrchState :=
  { scenarios := []
    destinations := []
    config := defaultScenarioConfig
    isRunning := false
    progress := []
    loading := true
    error := "" }

/-- Initial processing configuration (FileUploader lines 32-38). -/
def defaultProcessConfig : ProcessConfig :=
  { destination := ""
    sourcetype := ""
    batch_size := 100
    eps := 10
    endpoint := HecEndpoint.event }

/-- Initial FileUploader state (lines 23-38). -/
def defaultUploaderState : UploaderState :=
  { files := []
    destinations := []
    dragActive := false
    uploading := false
    processing := none
    progress := []
    error := ""
    processConfig := defaultProcessConfig }

/-- Orchestrator state with a scenario and destination selected, ready to
launch. -/
def readyOrchState : OrchState :=
  { defaultOrchState with
      loading := false
      config := { defaultScenarioConfig with
        scenario_id := "attack_scenario_orchestrator"
        destination_id := "dest-1" } }

/-- Streaming trace in which the user stops the scenario after the first
streamed line and the stream later delivers one more line and ends. -/
def stopMidStreamTrace : List RunEvent :=
  [RunEvent.line "PHASE 1: Reconnaissance", RunEvent.stop,
   RunEvent.line "event delivered", RunEvent.streamEnd]

/-- Orchestrator state mid-run, used for the idempotence check. -/
def runningOrchState : OrchState :=
  { readyOrchState with isRunning := true, progress := [initializingMsg] }

/-- Progress log at capacity: 31 lines is the most the capped updater ever
returns. -/
def atCapacityLog : List String := List.replicate 31 "PHASE event delivered"

/-- An HEC destination. -/
def hecDest : Dest := { id := "d1", name := "SDL HEC", type := DestKind.hec }

/-- A syslog destination. -/
def syslogDest : Dest := { id := "d2", name := "Syslog box", type := DestKind.syslog }

/-- A configured destination list holding one destination of each kind. -/
def bothKindsDests : List Dest := [hecDest, syslogDest]

/-- A file whose extension is not allowed. -/
def badExtFile : JsFile := { name := "payload.exe", size := 1024 }

/-! Theorems. -/

/-- C2: for every configuration in which the scenario id or the destination
id is empty, runScenario fails synchronously with the validation message and
changes nothing else — no request is issued, the run is not marked running,
progress and config are untouched; likewise processFile when its destination
or sourcetype is empty. -/
theorem runScenario_processFile_validation_no_side_effects
    (s : OrchState) (u : UploaderState) (fileId : String)
    (hs : s.config.scenario_id = "" ∨ s.config.destination_id = "")
    (hu : u.processConfig.destination = "" ∨ u.processConfig.sourcetype = "") :
    runScenarioStart s = ({ s with error := selectBothMsg }, false)
    ∧ processFileStart u fileId
        = ({ u with error := selectDestSourcetypeMsg }, false) := by
  constructor
  · unfold runScenarioStart
    rw [if_pos hs]
  · unfold processFileStart
    rw [if_pos hu]

/-- C2 witness: the initial states have empty ids, so launching fails with
the validation message and no request. -/
theorem runScenario_processFile_validation_witness :
    runScenarioStart defaultOrchState
      = ({ defaultOrchState with error := selectBothMsg }, false)
    ∧ processFileStart defaultUploaderState "file-1"
        = ({ defaultUploaderState with error := selectDestSourcetypeMsg }, false) :=
  runScenario_processFile_validation_no_side_effects defaultOrchState
    defaultUploaderState "file-1" (Or.inl rfl) (Or.inl rfl)

/-- C9: the capped progress updaters are bounded regardless of the prior log:
the scenario updater returns at most 31 entries; the file-processing and
event-generation updaters return at most 21. -/
theorem progress_updates_bounded (prev : List String) (line : String) :
    (scenarioProgressUpdate prev line).length ≤ 31
    ∧ (processProgressUpdate prev line).length ≤ 21
    ∧ (generationProgressUpdate prev line).length ≤ 21 := by
  refine ⟨?_, ?_, ?_⟩ <;>
    simp [scenarioProgressUpdate, processProgressUpdate,
      generationProgressUpdate, appendProgress, sliceLast] <;>
    omega

/-- C4 counterexample: applying stopScenario twice to a running state does
not equal applying it once — the second call appends a second stop line to
the progress log. -/
theorem stopScenario_not_idempotent :
    stopScenario (stopScenario runningOrchState) ≠ stopScenario runningOrchState := by
  decide

/-- C4 (amended): a second stopScenario is a no-op on every field except the
progress log, to which it appends the stop line again. -/
theorem stopScenario_second_call_appends_again (s : OrchState) :
    (stopScenario (stopScenario s)).isRunning = (stopScenario s).isRunning
    ∧ (stopScenario (stopScenario s)).config = (stopScenario s).config
    ∧ (stopScenario (stopScenario s)).error = (stopScenario s).error
    ∧ (stopScenario (stopScenario s)).progress
        = (stopScenario s).progress ++ [stoppedMsg] := by
  simp [stopScenario]

/-- C6 counterexample: a configured syslog destination is not selectable as
the target of a scenario run — the selector filters the destination list to
the HEC kind only. -/
theorem syslog_destination_not_selectable :
    syslogDest ∈ bothKindsDests
    ∧ syslogDest ∉ scenarioDestOptions bothKindsDests
    ∧ hecDest ∈ scenarioDestOptions bothKindsDests := by
  decide

/-- C6 (amended): a destination is selectable as the target of a scenario
run exactly when it is configured and of kind HEC; syslog destinations are
filtered out of the selector. -/
theorem scenarioDestOptions_mem_iff_hec (ds : List Dest) (d : Dest) :
    d ∈ scenarioDestOptions ds ↔ d ∈ ds ∧ d.type = DestKind.hec := by
  simp [scenarioDestOptions, List.mem_filter]

/-- C1 (code-bug evidence): launching a run and stopping it after the first
streamed line does not prevent completion — the read loop never consults
isRunning and nothing aborts the reader, so the later lines are still
appended and the stream's end still appends the completion line after the
user's stop. -/
theorem stop_does_not_prevent_completed :
    (runScenarioStart readyOrchState).2 = true
    ∧ (runEvents (runScenarioStart readyOrchState).1 stopMidStreamTrace).progress
        = [initializingMsg, "PHASE 1: Reconnaissance", stoppedMsg,
           "event delivered", completedMsg]
    ∧ completedMsg
        ∈ (runEvents (runScenarioStart readyOrchState).1 stopMidStreamTrace).progress := by
  decide

/-- C3 counterexample: at capacity (31 lines, the updater's maximum),
appending a line drops the oldest entry (the result still has 31 entries, so
one prior line was lost) yet inserts no synthetic truncation marker, let
alone exactly one. -/
theorem appendProgress_no_truncated_marker_at_capacity :
    atCapacityLog.length = 31
    ∧ (scenarioProgressUpdate atCapacityLog "next line").length = 31
    ∧ (scenarioProgressUpdate atCapacityLog "next line").count truncatedMarker = 0
    ∧ ¬ ((scenarioProgressUpdate atCapacityLog "next line").count truncatedMarker
          = 1) := by
  decide

/-- C3 (amended): appending a progress line keeps only the 30 most recent
prior lines and appends the new one — the oldest buffered entries are
dropped, but no synthetic truncation marker is inserted in their place, so
the consumer cannot tell that lines were lost. -/
theorem appendProgress_drops_oldest_without_marker
    (prev : List String) (line : String)
    (hprev : truncatedMarker ∉ prev) (hline : line ≠ truncatedMarker) :
    truncatedMarker ∉ scenarioProgressUpdate prev line
    ∧ (scenarioProgressUpdate prev line).length = min prev.length 30 + 1
    ∧ scenarioProgressUpdate prev line <:+ prev ++ [line] := by
  refine ⟨?_, ?_, ?_⟩
  · intro hmem
    rcases List.mem_append.1 hmem with h | h
    · exact hprev (List.mem_of_mem_drop h)
    · rcases List.mem_singleton.1 h with h2
      exact hline h2.symm
  · simp [scenarioProgressUpdate, appendProgress, sliceLast]
    omega
  · obtain ⟨t, ht⟩ := List.drop_suffix (prev.length - 30) prev
    exact ⟨t, by rw [scenarioProgressUpdate, appendProgress, sliceLast,
      ← List.append_assoc, ht]⟩

/-- C3 witness: the amended statement at a one-line log. -/
theorem appendProgress_drops_oldest_without_marker_witness :
    truncatedMarker ∉ scenarioProgressUpdate ["a"] "b"
    ∧ (scenarioProgressUpdate ["a"] "b").length = min (List.length ["a"]) 30 + 1
    ∧ scenarioProgressUpdate ["a"] "b" <:+ ["a"] ++ ["b"] :=
  appendProgress_drops_oldest_without_marker ["a"] "b" (by decide) (by decide)

/-- A generated trace id is never the empty string: it starts with the
seven-plus characters `pulse-` and `-` around the two variable pieces. -/
theorem generateTraceId_ne_empty (ts rnd : String) : generateTraceId ts rnd ≠ "" := by
  intro he
  have hlen : (generateTraceId ts rnd).length = 0 := by rw [he]; rfl
  have h6 : ("pulse-" : String).length = 6 := rfl
  have h1 : ("-" : String).length = 1 := rfl
  simp [generateTraceId, String.length_append, h6, h1] at hlen

/-- C5: when trace tagging is enabled, the run proceeds with a non-empty
trace id — an absent or empty trace_id is replaced by a freshly generated
`pulse-...` id before events are produced, and a user-supplied one is kept. -/
theorem startRun_traceId_nonempty_when_tagging
    (c : ScenarioConfig) (ts rnd : String) (h : c.tag_trace = true) :
    (startRunConfig c (generateTraceId ts rnd)).tag_trace = true
    ∧ (startRunConfig c (generateTraceId ts rnd)).trace_id ≠ "" := by
  constructor
  · simpa [startRunConfig] using h
  · unfold startRunConfig startRunTraceId
    by_cases hid : c.trace_id = ""
    · rw [if_pos ⟨h, hid⟩]
      exact generateTraceId_ne_empty ts rnd
    · rw [if_neg (fun hc => hid hc.2)]
      exact hid

/-- C5 witness: the default config has tagging enabled and an empty trace id;
run start fills in a non-empty generated id. -/
theorem startRun_traceId_nonempty_witness :
    (startRunConfig defaultScenarioConfig (generateTraceId "m3k9q" "a1b2c3")).tag_trace
      = true
    ∧ (startRunConfig defaultScenarioConfig
        (generateTraceId "m3k9q" "a1b2c3")).trace_id ≠ "" :=
  startRun_traceId_nonempty_when_tagging defaultScenarioConfig "m3k9q" "a1b2c3" rfl

/-- C7 counterexample: a single update through the workers input handler,
from the initial (reachable) configuration, stores 100 — above the maximum
of 50 — and another stores −5, below 1; the handler applies no clamping. -/
theorem updateWorkers_exceeds_bounds :
    (updateWorkers defaultScenarioConfig "100").workers = 100
    ∧ ¬ ((updateWorkers defaultScenarioConfig "100").workers ≤ 50)
    ∧ (updateWorkers defaultScenarioConfig "-5").workers = -5
    ∧ ¬ (1 ≤ (updateWorkers defaultScenarioConfig "-5").workers) := by
  decide

/-- C7 (amended): the workers handler stores parseInt of the input with NaN
and 0 mapped to 1 — so workers is never set to 0 and unparsable input yields
1 — but it performs no clamping: any other parsed value, inside or outside
[1, 50], is stored as is. -/
theorem updateWorkers_nonzero_unclamped (c : ScenarioConfig) (v : String) :
    (updateWorkers c v).workers ≠ 0
    ∧ ((updateWorkers c v).workers = 1
        ∨ ∃ n : Int, parseIntJS v = some n ∧ n ≠ 0
            ∧ (updateWorkers c v).workers = n) := by
  unfold updateWorkers workersOnChange
  cases hp : parseIntJS v with
  | none => exact ⟨one_ne_zero, Or.inl rfl⟩
  | some n =>
      by_cases hn : n = 0
      · subst hn
        simp
      · simp only [if_neg hn]
        exact ⟨hn, Or.inr ⟨n, rfl, hn, rfl⟩⟩

/-- C8: every destination-creation payload has kind HEC or kind Syslog, and
carries exactly the connection parameters of its kind — a URL for HEC with
the syslog keys absent, or ip, port and protocol for Syslog with the url key
absent. -/
theorem buildDestPayload_kind_params (f : DestFormData) :
    ((buildDestPayload f).type = DestKind.hec
      ∨ (buildDestPayload f).type = DestKind.syslog)
    ∧ specDestinationKindParams (buildDestPayload f) := by
  cases h : f.type <;>
    simp [buildDestPayload, specDestinationKindParams, h]

/-- C10: handleFiles rejects a file whose extension is not allowed or whose
size exceeds 50 MB by setting one of the two validation messages and
returning — no upload request is issued and every other piece of state
(file list, uploading flag, processing, progress, config, destinations,
drag flag) is unchanged; conversely the upload request is issued only for a
file passing both checks. -/
theorem handleFiles_rejects_invalid_without_side_effects
    (s : UploaderState) (f : JsFile) :
    ((allowedTypes.contains (fileExtOf f.name) = false ∨ maxUploadBytes < f.size) →
      (handleFilesStep s f).2 = false
      ∧ ((handleFilesStep s f).1.error = invalidTypeMsg
          ∨ (handleFilesStep s f).1.error = tooLargeMsg)
      ∧ (handleFilesStep s f).1.files = s.files
      ∧ (handleFilesStep s f).1.uploading = s.uploading
      ∧ (handleFilesStep s f).1.processing = s.processing
      ∧ (handleFilesStep s f).1.progress = s.progress
      ∧ (handleFilesStep s f).1.processConfig = s.processConfig
      ∧ (handleFilesStep s f).1.destinations = s.destinations
      ∧ (handleFilesStep s f).1.dragActive = s.dragActive)
    ∧ ((handleFilesStep s f).2 = true →
      allowedTypes.contains (fileExtOf f.name) = true ∧ f.size ≤ maxUploadBytes) := by
  by_cases h1 : allowedTypes.contains (fileExtOf f.name) = false
  · constructor
    · intro _
      unfold handleFilesStep
      rw [if_pos h1]
      simp
    · intro h2
      unfold handleFilesStep at h2
      rw [if_pos h1] at h2
      simp at h2
  · by_cases h2 : maxUploadBytes < f.size
    · constructor
      · intro _
        unfold handleFilesStep
        rw [if_neg h1, if_pos h2]
        simp
      · intro h3
        unfold handleFilesStep at h3
        rw [if_neg h1, if_pos h2] at h3
        simp at h3
    · constructor
      · intro h3
        rcases h3 with h3 | h3
        · exact absurd h3 h1
        · exact absurd h3 h2
      · intro _
        constructor
        · cases hb : allowedTypes.contains (fileExtOf f.name)
          · exact absurd hb h1
          · rfl
        · omega

/-- C10 witness: a .exe file is rejected with the type message and nothing
else changes. -/
theorem handleFiles_rejects_invalid_witness :
    (handleFilesStep defaultUploaderState badExtFile).2 = false
    ∧ ((handleFilesStep defaultUploaderState badExtFile).1.error = invalidTypeMsg
        ∨ (handleFilesStep defaultUploaderState badExtFile).1.error = tooLargeMsg)
    ∧ (handleFilesStep defaultUploaderState badExtFile).1.files
        = defaultUploaderState.files
    ∧ (handleFilesStep defaultUploaderState badExtFile).1.uploading
        = defaultUploaderState.uploading
    ∧ (handleFilesStep defaultUploaderState badExtFile).1.processing
        = defaultUploaderState.processing
    ∧ (handleFilesStep defaultUploaderState badExtFile).1.progress
        = defaultUploaderState.progress
    ∧ (handleFilesStep defaultUploaderState badExtFile).1.processConfig
        = defaultUploaderState.processConfig
    ∧ (handleFilesStep defaultUploaderState badExtFile).1.destinations
        = defaultUploaderState.destinations
    ∧ (handleFilesStep defaultUploaderState badExtFile).1.dragActive
        = defaultUploaderState.dragActive :=
  (handleFiles_rejects_invalid_without_side_effects defaultUploaderState
    badExtFile).1 (Or.inl (by decide))
